import Mathlib

/-!
Shallow embedding of the LoopKit React SDK (loopkitai/reactjs-sdk).

The repository is a thin React binding over the external analytics client
imported as LoopKit from the package loopkit/javascript. The definitions
below embed, directly from the source:

* the error classes of src/types.ts (LoopKitError and its two subclasses);
* the provider state and the delegating operation wrappers of
  src/context.tsx (track, trackBatch, identify, group, flush, getQueueSize,
  configure, and the initialization effect body initializeLoopKit);
* the React effect dependency semantics that drive re-initialization and
  the auto-identify effect of src/hooks.ts (React compares each element of
  a dependency array with Object.is, so object-typed dependencies compare
  by reference identity, which we model with an explicit reference id);
* the route tracking effect of src/hooks.ts (useRouteTracking);
* the error boundary component (LoopKitErrorBoundary).

The external collaborator is modelled by an oracle value describing, for
the one delegated call an operation makes, whether that call returns
normally or throws, and with which JavaScript value it throws.
-/

namespace LoopKitReact

/-- JavaScript property values, as far as the wrapped payloads need them. -/
inductive PropVal where
  | str (s : String)
  | boolVal (b : Bool)
  | numVal (n : Int)
  | undef
deriving DecidableEq, Repr

/-- A JavaScript object payload: an ordered list of key and value pairs. -/
abbrev Props := List (String × PropVal)

/-- A configuration object has the same shape as a generic payload. -/
abbrev Config := List (String × PropVal)

/-- A batch event: event name together with optional properties. -/
abbrev BatchEvent := String × Option Props

/-- A plain JavaScript Error object, reduced to the fields the SDK reads. -/
structure BaseErr where
  name : String
  message : String
deriving DecidableEq, Repr

/-- A JavaScript thrown value: either an Error instance or any other value,
identified by its string rendering, since the source only ever applies
String to a non-Error thrown value. -/
inductive Thrown where
  | errVal (e : BaseErr)
  | otherVal (s : String)
deriving DecidableEq, Repr

/-- Embedding of the expression err instanceof Error then err else
new Error of String err, used by every catch block in src/context.tsx. -/
def toBaseErr : Thrown → BaseErr
  | Thrown.errVal e => e
  | Thrown.otherVal s => { name := "Error", message := s }

/-- The React SDK error classes of src/types.ts: name, message, a machine
readable code and the optional wrapped original cause. -/
structure LKError where
  name : String
  message : String
  code : Option String
  originalError : Option BaseErr
deriving DecidableEq, Repr

/-- Constructor of LoopKitTrackingError from src/types.ts. -/
def LoopKitTrackingError (message : String) (originalError : Option BaseErr) : LKError :=
  { name := "LoopKitTrackingError", message := message,
    code := some "TRACKING_ERROR", originalError := originalError }

/-- Constructor of LoopKitInitializationError from src/types.ts. -/
def LoopKitInitializationError (message : String) (originalError : Option BaseErr) : LKError :=
  { name := "LoopKitInitializationError", message := message,
    code := some "INITIALIZATION_ERROR", originalError := originalError }

/-- The provider lifecycle state of src/context.tsx: the four useState
cells isInitialized, isLoading, error and currentConfig. -/
structure ProviderState where
  isInitialized : Bool
  isLoading : Bool
  error : Option LKError
  currentConfig : Option Config
deriving DecidableEq, Repr

/-- One call received by the external collaborator, with exactly the
arguments the source passes at the call site. -/
inductive DelegateCall where
  | initCall (apiKey : String) (config : Config)
  | trackCall (eventName : String) (properties : Option Props) (options : Option Props)
  | trackBatchCall (events : List BatchEvent)
  | identifyCall (userId : String) (properties : Option Props)
  | groupCall (groupId : String) (properties : Option Props) (groupType : Option String)
  | flushCall
  | getQueueSizeCall
  | configureCall (options : Config)
deriving DecidableEq, Repr

/-- Oracle for the one delegated call an operation makes: the collaborator
either returns normally or throws a value. -/
inductive DelegateBehavior where
  | succeeds
  | throws (t : Thrown)
deriving DecidableEq, Repr

/-- What the caller of a wrapped operation observes: normal return or a
thrown SDK error. -/
inductive OpResult where
  | ok
  | thrown (e : LKError)
deriving DecidableEq, Repr

/-- Complete observable outcome of one wrapped operation: the calls the
external collaborator received, the onError callback invocations, the
result the caller observes, and the provider state afterwards. -/
structure OpOutcome where
  delegateCalls : List DelegateCall
  onErrorCalls : List LKError
  result : OpResult
  state : ProviderState
deriving DecidableEq, Repr

/-- Embedding of track from src/context.tsx lines 141 to 166. -/
def track (st : ProviderState) (hasOnError : Bool) (delegate : DelegateBehavior)
    (eventName : String) (properties : Option Props) (options : Option Props) : OpOutcome :=
  if st.isInitialized = false then
    { delegateCalls := [], onErrorCalls := [],
      result := OpResult.thrown (LoopKitTrackingError "LoopKit is not initialized" none),
      state := st }
  else
    match delegate with
    | DelegateBehavior.succeeds =>
        { delegateCalls := [DelegateCall.trackCall eventName properties options],
          onErrorCalls := [], result := OpResult.ok, state := st }
    | DelegateBehavior.throws t =>
        let e := LoopKitTrackingError ("Failed to track event: " ++ eventName)
          (some (toBaseErr t))
        { delegateCalls := [DelegateCall.trackCall eventName properties options],
          onErrorCalls := if hasOnError then [e] else [],
          result := OpResult.thrown e, state := st }

/-- Embedding of trackBatch from src/context.tsx lines 169 to 190. -/
def trackBatch (st : ProviderState) (hasOnError : Bool) (delegate : DelegateBehavior)
    (events : List BatchEvent) : OpOutcome :=
  if st.isInitialized = false then
    { delegateCalls := [], onErrorCalls := [],
      result := OpResult.thrown (LoopKitTrackingError "LoopKit is not initialized" none),
      state := st }
  else
    match delegate with
    | DelegateBehavior.succeeds =>
        { delegateCalls := [DelegateCall.trackBatchCall events],
          onErrorCalls := [], result := OpResult.ok, state := st }
    | DelegateBehavior.throws t =>
        let e := LoopKitTrackingError "Failed to track batch events" (some (toBaseErr t))
        { delegateCalls := [DelegateCall.trackBatchCall events],
          onErrorCalls := if hasOnError then [e] else [],
          result := OpResult.thrown e, state := st }

/-- Embedding of identify from src/context.tsx lines 193 to 214. -/
def identify (st : ProviderState) (hasOnError : Bool) (delegate : DelegateBehavior)
    (userId : String) (properties : Option Props) : OpOutcome :=
  if st.isInitialized = false then
    { delegateCalls := [], onErrorCalls := [],
      result := OpResult.thrown (LoopKitTrackingError "LoopKit is not initialized" none),
      state := st }
  else
    match delegate with
    | DelegateBehavior.succeeds =>
        { delegateCalls := [DelegateCall.identifyCall userId properties],
          onErrorCalls := [], result := OpResult.ok, state := st }
    | DelegateBehavior.throws t =>
        let e := LoopKitTrackingError ("Failed to identify user: " ++ userId)
          (some (toBaseErr t))
        { delegateCalls := [DelegateCall.identifyCall userId properties],
          onErrorCalls := if hasOnError then [e] else [],
          result := OpResult.thrown e, state := st }

/-- Embedding of group from src/context.tsx lines 217 to 242. The wrapper
accepts a third parameter named underscore groupType, but the call site on
line 228 reads LoopKit.group open groupId comma properties close: only two
arguments are passed, so the collaborator receives undefined as its group
type, which we record as none in the groupCall it receives. -/
def group (st : ProviderState) (hasOnError : Bool) (delegate : DelegateBehavior)
    (groupId : String) (properties : Option Props) (_groupType : Option String) : OpOutcome :=
  if st.isInitialized = false then
    { delegateCalls := [], onErrorCalls := [],
      result := OpResult.thrown (LoopKitTrackingError "LoopKit is not initialized" none),
      state := st }
  else
    match delegate with
    | DelegateBehavior.succeeds =>
        { delegateCalls := [DelegateCall.groupCall groupId properties none],
          onErrorCalls := [], result := OpResult.ok, state := st }
    | DelegateBehavior.throws t =>
        let e := LoopKitTrackingError ("Failed to set group: " ++ groupId)
          (some (toBaseErr t))
        { delegateCalls := [DelegateCall.groupCall groupId properties none],
          onErrorCalls := if hasOnError then [e] else [],
          result := OpResult.thrown e, state := st }

/-- Embedding of flush from src/context.tsx lines 245 to 263. -/
def flush (st : ProviderState) (hasOnError : Bool) (delegate : DelegateBehavior) : OpOutcome :=
  if st.isInitialized = false then
    { delegateCalls := [], onErrorCalls := [],
      result := OpResult.thrown (LoopKitTrackingError "LoopKit is not initialized" none),
      state := st }
  else
    match delegate with
    | DelegateBehavior.succeeds =>
        { delegateCalls := [DelegateCall.flushCall],
          onErrorCalls := [], result := OpResult.ok, state := st }
    | DelegateBehavior.throws t =>
        let e := LoopKitTrackingError "Failed to flush events" (some (toBaseErr t))
        { delegateCalls := [DelegateCall.flushCall],
          onErrorCalls := if hasOnError then [e] else [],
          result := OpResult.thrown e, state := st }

/-- Oracle for the delegated getQueueSize call: returns a number or throws. -/
inductive QueueDelegate where
  | returns (n : Nat)
  | throws (t : Thrown)
deriving DecidableEq, Repr

/-- Observable outcome of getQueueSize. The operation is total: the model
returns a number in every case; the source has no uncaught path, so no
thrown result is representable. The onError callback of this operation
receives the raw error value after the instanceof normalization, not a
tracking error class. -/
structure QueueOutcome where
  delegateCalls : List DelegateCall
  onErrorCalls : List BaseErr
  value : Nat
deriving DecidableEq, Repr

/-- Embedding of getQueueSize from src/context.tsx lines 266 to 279. -/
def getQueueSize (st : ProviderState) (hasOnError : Bool) (delegate : QueueDelegate) : QueueOutcome :=
  if st.isInitialized = false then
    { delegateCalls := [], onErrorCalls := [], value := 0 }
  else
    match delegate with
    | QueueDelegate.returns n =>
        { delegateCalls := [DelegateCall.getQueueSizeCall], onErrorCalls := [], value := n }
    | QueueDelegate.throws t =>
        { delegateCalls := [DelegateCall.getQueueSizeCall],
          onErrorCalls := if hasOnError then [toBaseErr t] else [], value := 0 }

/-- Embedding of the JavaScript object spread expression that merges the
supplied options over the previous config, written in the source as a
braced spread of prev followed by a spread of options. Keys of prev keep
their original position with values overridden by options where the key is
shared; keys only in options are appended in their order. -/
def spreadMerge (prev options : Config) : Config :=
  (prev.map (fun p =>
    match options.find? (fun o => o.1 = p.1) with
    | some o => (p.1, o.2)
    | none => p)) ++
  options.filter (fun o => prev.all (fun p => p.1 ≠ o.1))

/-- Embedding of configure from src/context.tsx lines 282 to 304. The
setCurrentConfig update runs only after the delegated configure call
returned normally; when the delegate throws, control jumps to the catch
block and the cached config is never touched. The setCurrentConfig updater
spreads prev, which may be null, in which case the spread contributes no
keys, modelled by getD with the empty object. -/
def configure (st : ProviderState) (hasOnError : Bool) (delegate : DelegateBehavior)
    (options : Config) : OpOutcome :=
  if st.isInitialized = false then
    { delegateCalls := [], onErrorCalls := [],
      result := OpResult.thrown (LoopKitTrackingError "LoopKit is not initialized" none),
      state := st }
  else
    match delegate with
    | DelegateBehavior.succeeds =>
        { delegateCalls := [DelegateCall.configureCall options],
          onErrorCalls := [], result := OpResult.ok,
          state := { st with
            currentConfig := some (spreadMerge (st.currentConfig.getD []) options) } }
    | DelegateBehavior.throws t =>
        let e := LoopKitTrackingError "Failed to configure LoopKit" (some (toBaseErr t))
        { delegateCalls := [DelegateCall.configureCall options],
          onErrorCalls := if hasOnError then [e] else [],
          result := OpResult.thrown e, state := st }

/-- Oracle for the awaited LoopKit.init call: resolves or rejects. -/
inductive InitDelegate where
  | resolves
  | rejects (t : Thrown)
deriving DecidableEq, Repr

/-- Observable outcome of one run of the initialization effect body. -/
structure InitOutcome where
  delegateCalls : List DelegateCall
  onErrorCalls : List LKError
  onInitializedCalls : Nat
  state : ProviderState
deriving DecidableEq, Repr

/-- Embedding of the async function initializeLoopKit from src/context.tsx
lines 47 to 82, evaluated to its settled outcome. The body first sets
isLoading true and error null, then awaits LoopKit.init. On resolution it
stores the config, sets isInitialized true and isLoading false and calls
the optional onInitialized callback; error stays at the null it was reset
to. On rejection it wraps the thrown value in a LoopKitInitializationError,
stores it in error, sets isLoading false and isInitialized false and calls
the optional onError callback; currentConfig is not touched on this path,
so it keeps the value it had before the run. -/
def initializeLoopKit (st : ProviderState) (hasOnError hasOnInitialized : Bool)
    (apiKey : String) (config : Config) (delegate : InitDelegate) : InitOutcome :=
  match delegate with
  | InitDelegate.resolves =>
      { delegateCalls := [DelegateCall.initCall apiKey config],
        onErrorCalls := [],
        onInitializedCalls := if hasOnInitialized then 1 else 0,
        state := { isInitialized := true, isLoading := false, error := none,
                   currentConfig := some config } }
  | InitDelegate.rejects t =>
      let e := LoopKitInitializationError "Failed to initialize LoopKit" (some (toBaseErr t))
      { delegateCalls := [DelegateCall.initCall apiKey config],
        onErrorCalls := if hasOnError then [e] else [],
        onInitializedCalls := 0,
        state := { isInitialized := false, isLoading := false, error := some e,
                   currentConfig := st.currentConfig } }

/-! ### React effect dependency semantics for the provider

React re-runs an effect when some element of its dependency array differs
from the previous render under Object.is. For string and boolean
dependencies Object.is is value equality; for object and function
dependencies it is reference identity, which we model with an explicit
reference id carried next to the structural value. -/

/-- A JavaScript object reference: identity plus the structural value it
points to. Object.is compares only refId. -/
structure ObjRef where
  refId : Nat
  value : Config
deriving DecidableEq, Repr

/-- One render of the provider, carrying the dependency array of the
initialization effect from src/context.tsx line 82: apiKey, config,
onError, onInitialized. The two callbacks are function references, also
compared by identity. -/
structure ProviderRenderInput where
  apiKey : String
  configRef : ObjRef
  onErrorRef : Nat
  onInitializedRef : Nat
deriving DecidableEq, Repr

/-- Object.is comparison of the dependency array of the initialization
effect: apiKey by string value, config and the callbacks by reference. -/
def initDepsEqual (a b : ProviderRenderInput) : Bool :=
  a.apiKey == b.apiKey && a.configRef.refId == b.configRef.refId &&
    a.onErrorRef == b.onErrorRef && a.onInitializedRef == b.onInitializedRef

/-- Number of initialization effect runs after the first render, counting
one run for every render whose dependency array differs from the previous
render. -/
def initEffectRunsAux (prev : ProviderRenderInput) : List ProviderRenderInput → Nat
  | [] => 0
  | r :: rs => (if initDepsEqual prev r then 0 else 1) + initEffectRunsAux r rs

/-- Number of initialization effect runs over a render sequence: the effect
runs on mount and then on every dependency change. -/
def initEffectRuns : List ProviderRenderInput → Nat
  | [] => 0
  | r :: rs => 1 + initEffectRunsAux r rs

/-! ### Auto-identify effect of useLoopKit, src/hooks.ts lines 43 to 47

The effect body reads: if autoIdentify and userId and isInitialized then
identify of userId and userProperties. Its dependency array on line 47 is
autoIdentify, userId, userProperties, isInitialized, identify. The
userProperties object and the identify function are compared by reference,
modelled as reference ids; userId compares by string value, where the
empty string models an absent or empty, hence falsy, userId. -/

/-- One render of a component calling useLoopKit with options, carrying
everything the auto-identify effect reads. -/
structure UseLoopKitRender where
  autoIdentify : Bool
  userId : String
  userPropsRef : Nat
  userProps : Option Props
  isInitialized : Bool
  identifyRef : Nat
deriving DecidableEq, Repr

/-- Object.is comparison of the auto-identify dependency array. -/
def autoIdentifyDepsEqual (a b : UseLoopKitRender) : Bool :=
  a.autoIdentify == b.autoIdentify && a.userId == b.userId &&
    a.userPropsRef == b.userPropsRef && a.isInitialized == b.isInitialized &&
    a.identifyRef == b.identifyRef

/-- The identify invocations one execution of the effect body performs. -/
def autoIdentifyRun (r : UseLoopKitRender) : List DelegateCall :=
  if r.autoIdentify && !(r.userId == "") && r.isInitialized then
    [DelegateCall.identifyCall r.userId r.userProps]
  else []

/-- Identify invocations over the renders after the first, executing the
effect body exactly when the dependency array changed. -/
def autoIdentifyCallsAux (prev : UseLoopKitRender) : List UseLoopKitRender → List DelegateCall
  | [] => []
  | r :: rs =>
      (if autoIdentifyDepsEqual prev r then [] else autoIdentifyRun r) ++
        autoIdentifyCallsAux r rs

/-- Identify invocations over a whole render sequence: the effect runs on
mount and then on every dependency change. -/
def autoIdentifyCalls : List UseLoopKitRender → List DelegateCall
  | [] => []
  | r :: rs => autoIdentifyRun r ++ autoIdentifyCallsAux r rs

/-! ### Route tracking effect of useRouteTracking, src/hooks.ts lines 354
to 380. The previousRoute ref starts at the empty string and persists
across effect executions; the effect returns early unless initialized and
in a browser, computes the current route as routeName or else the current
pathname, and tracks a route underscore change event only when the current
route differs from the stored previous route, updating the ref in that
branch only. -/

/-- One execution of the route tracking effect body. -/
structure RouteRun where
  isInitialized : Bool
  isBrowser : Bool
  routeName : Option String
  pathname : String
deriving DecidableEq, Repr

/-- The current route computed on src/hooks.ts line 364: routeName or else
pathname, where JavaScript or-else treats the empty string as falsy. -/
def currentRouteOf (r : RouteRun) : String :=
  match r.routeName with
  | some s => if s = "" then r.pathname else s
  | none => r.pathname

/-- One step of the route tracking effect: the updated previousRoute ref
and the routes for which a route underscore change event was emitted. -/
def routeStep (prev : String) (r : RouteRun) : String × List String :=
  if r.isInitialized && r.isBrowser then
    let current := currentRouteOf r
    if current ≠ prev then (current, [current]) else (prev, [])
  else (prev, [])

/-- Routes of all route underscore change events emitted over a sequence of
effect executions, threading the previousRoute ref. -/
def routeEvents (prev : String) : List RouteRun → List String
  | [] => []
  | r :: rs => ((routeStep prev r).2) ++ routeEvents (routeStep prev r).1 rs

/-! ### Error boundary, components/ErrorBoundary.tsx -/

/-- A React rendering error caught by the boundary, reduced to the fields
componentDidCatch reads. -/
structure ReactError where
  name : String
  message : String
  stack : String
deriving DecidableEq, Repr

/-- The React ErrorInfo object passed to componentDidCatch. -/
structure CaughtErrorInfo where
  componentStack : String
deriving DecidableEq, Repr

/-- The boundary props componentDidCatch and render read. The source guard
is enableTracking not strictly equal to false, so the default of an absent
prop is to track; the model carries the resolved boolean. -/
structure BoundaryProps where
  hasFallback : Bool
  enableTracking : Bool
  hasOnError : Bool
deriving DecidableEq, Repr

/-- The properties object built at the LoopKit.track call site inside
componentDidCatch: error message, name and stack, the component stack, an
error boundary marker, and the page path and url, which are undefined
outside a browser. -/
def boundaryEventProps (e : ReactError) (info : CaughtErrorInfo)
    (browser : Bool) (pathname url : String) : Props :=
  [("error_message", PropVal.str e.message),
   ("error_name", PropVal.str e.name),
   ("error_stack", PropVal.str e.stack),
   ("component_stack", PropVal.str info.componentStack),
   ("error_boundary", PropVal.boolVal true),
   ("page", if browser then PropVal.str pathname else PropVal.undef),
   ("url", if browser then PropVal.str url else PropVal.undef)]

/-- Observable outcome of componentDidCatch: the track calls the external
collaborator received, how many failures were logged to the console, how
many times the onError prop was called, whether any exception escaped the
method, and the component state it stored. -/
structure DidCatchOutcome where
  trackCalls : List DelegateCall
  consoleErrorCount : Nat
  onErrorPropCalls : Nat
  escaped : Option Thrown
  stateError : Option ReactError
  stateErrorInfo : Option CaughtErrorInfo
deriving DecidableEq, Repr

/-- Embedding of LoopKitErrorBoundary.componentDidCatch. It stores the
error and info in state, then, when tracking is enabled, calls
LoopKit.track inside a try block whose catch logs the tracking failure to
the console; finally it calls the optional onError prop. The trackThrows
oracle says whether the LoopKit.track call throws. No path rethrows, so
escaped is none in every case. -/
def componentDidCatch (p : BoundaryProps) (e : ReactError) (info : CaughtErrorInfo)
    (browser : Bool) (pathname url : String) (trackThrows : Option Thrown) : DidCatchOutcome :=
  if p.enableTracking then
    { trackCalls := [DelegateCall.trackCall "react_error_boundary"
        (some (boundaryEventProps e info browser pathname url)) none],
      consoleErrorCount := match trackThrows with | some _ => 1 | none => 0,
      onErrorPropCalls := if p.hasOnError then 1 else 0,
      escaped := none, stateError := some e, stateErrorInfo := some info }
  else
    { trackCalls := [], consoleErrorCount := 0,
      onErrorPropCalls := if p.hasOnError then 1 else 0,
      escaped := none, stateError := some e, stateErrorInfo := some info }

/-- What LoopKitErrorBoundary.render returns. -/
inductive RenderOutput where
  | childrenOut
  | customFallback (e : Option ReactError) (info : Option CaughtErrorInfo)
  | defaultFallback (e : Option ReactError) (info : Option CaughtErrorInfo)
deriving DecidableEq, Repr

/-- Embedding of LoopKitErrorBoundary.render: with hasError set it renders
the caller supplied fallback when one is present, else the default message
block, both receiving the stored error and info; otherwise it renders the
children. -/
def renderBoundary (hasError : Bool) (hasFallback : Bool)
    (stateError : Option ReactError) (stateErrorInfo : Option CaughtErrorInfo) : RenderOutput :=
  if hasError then
    if hasFallback then RenderOutput.customFallback stateError stateErrorInfo
    else RenderOutput.defaultFallback stateError stateErrorInfo
  else RenderOutput.childrenOut

/-! ## Theorems -/

/-- Invariant on the settled lifecycle state: loading finished and exactly
one of the ready and errored shapes holds. -/
def settledInvariant (s : ProviderState) : Prop :=
  s.isLoading = false ∧
  ((s.isInitialized = true ∧ s.error = none) ∨
   (s.isInitialized = false ∧
     ∃ e, s.error = some e ∧ e.name = "LoopKitInitializationError")) ∧
  ¬(s.isInitialized = true ∧ s.error ≠ none)

/-- C1: for every credential and config pair and every prior state, once
the initialize operation settles, either isInitialized is true with error
null, or isInitialized is false with a non null InitializationFailure in
error, never both shapes at once, and isLoading is false in both cases. -/
theorem C1_init_settled_exactly_one (st : ProviderState) (hasOnError hasOnInitialized : Bool)
    (apiKey : String) (config : Config) (d : InitDelegate) :
    settledInvariant (initializeLoopKit st hasOnError hasOnInitialized apiKey config d).state := by
  cases d with
  | resolves =>
      simp [initializeLoopKit, settledInvariant]
  | rejects t =>
      simp [initializeLoopKit, settledInvariant, LoopKitInitializationError]

/-- Failure shape of a delegated operation invoked before initialization:
no call reaches the collaborator, no error callback fires, the state is
unchanged, and the caller observes a tracking failure whose message
contains the words not initialized. -/
def notInitFailure (o : OpOutcome) (st : ProviderState) : Prop :=
  o.delegateCalls = [] ∧ o.onErrorCalls = [] ∧ o.state = st ∧
  ∃ e, o.result = OpResult.thrown e ∧ e.name = "LoopKitTrackingError" ∧
    ∃ pre post, e.message = pre ++ "not initialized" ++ post

/-- C2: each of track, trackBatch, identify, group, flush and configure,
invoked while isInitialized is false, fails with a TrackingFailure whose
message contains not initialized; the external collaborator is not called
and the lifecycle state is unchanged. -/
theorem C2_uninitialized_operations_fail (st : ProviderState) (hasOnError : Bool)
    (d : DelegateBehavior) (eventName userId groupId : String)
    (properties options gprops : Option Props) (events : List BatchEvent)
    (groupType : Option String) (cfgOptions : Config)
    (h : st.isInitialized = false) :
    notInitFailure (track st hasOnError d eventName properties options) st ∧
    notInitFailure (trackBatch st hasOnError d events) st ∧
    notInitFailure (identify st hasOnError d userId properties) st ∧
    notInitFailure (group st hasOnError d groupId gprops groupType) st ∧
    notInitFailure (flush st hasOnError d) st ∧
    notInitFailure (configure st hasOnError d cfgOptions) st := by
  have hmsg : (LoopKitTrackingError "LoopKit is not initialized" none).message =
      "LoopKit is " ++ "not initialized" ++ "" := by decide
  refine ⟨?_, ?_, ?_, ?_, ?_, ?_⟩ <;>
    · simp only [track, trackBatch, identify, group, flush, configure, h, if_pos]
      exact ⟨rfl, rfl, rfl, LoopKitTrackingError "LoopKit is not initialized" none,
        rfl, rfl, "LoopKit is ", "", hmsg⟩

/-- Witness for C2 at a concrete uninitialized state and concrete calls. -/
theorem C2_uninitialized_operations_fail_witness :
    let st : ProviderState :=
      { isInitialized := false, isLoading := true, error := none, currentConfig := none }
    notInitFailure (track st true DelegateBehavior.succeeds "x" none none) st ∧
    notInitFailure (trackBatch st true DelegateBehavior.succeeds []) st ∧
    notInitFailure (identify st true DelegateBehavior.succeeds "u1" none) st ∧
    notInitFailure (group st true DelegateBehavior.succeeds "g1" none (some "team")) st ∧
    notInitFailure (flush st true DelegateBehavior.succeeds) st ∧
    notInitFailure (configure st true DelegateBehavior.succeeds []) st :=
  C2_uninitialized_operations_fail
    { isInitialized := false, isLoading := true, error := none, currentConfig := none }
    true DelegateBehavior.succeeds "x" "u1" "g1" none none none [] (some "team") [] rfl

/-- C3 counterexample: with the collaborator throwing the non Error value
with string form boom during track while initialized, the constructed
TrackingFailure carries a freshly built Error object as its cause, and that
cause is not the original thrown value. -/
theorem C3_cause_not_original_thrown_value :
    (track { isInitialized := true, isLoading := false, error := none, currentConfig := none }
        true (DelegateBehavior.throws (Thrown.otherVal "boom")) "x" none none).result =
      OpResult.thrown (LoopKitTrackingError "Failed to track event: x"
        (some { name := "Error", message := "boom" })) ∧
    Thrown.errVal { name := "Error", message := "boom" } ≠ Thrown.otherVal "boom" := by
  decide

/-- Failure shape of a delegated operation whose collaborator call threw
while initialized: the collaborator received exactly the one call, the
caller observes a TrackingFailure with the operation specific message
carrying the normalized cause, the error callback receives that same
failure exactly when registered, and the lifecycle state is unchanged. -/
def reclassifiedFailure (o : OpOutcome) (st : ProviderState) (hasOnError : Bool)
    (call : DelegateCall) (msg : String) (t : Thrown) : Prop :=
  o.delegateCalls = [call] ∧
  o.result = OpResult.thrown (LoopKitTrackingError msg (some (toBaseErr t))) ∧
  o.onErrorCalls = (if hasOnError then [LoopKitTrackingError msg (some (toBaseErr t))] else []) ∧
  o.state = st

/-- C3 amended: while initialized, a collaborator failure in track,
trackBatch, identify, group, flush or configure is caught and reclassified
as a TrackingFailure whose message names the operation and, where
available, the event, user or group identifier, and whose cause is the
original thrown value when that value is an Error instance and otherwise an
Error wrapping its string form; the optional error callback receives that
failure and the same failure is re raised, so the caller never observes the
raw thrown value. -/
theorem C3_reclassify_and_rethrow (st : ProviderState) (hasOnError : Bool) (t : Thrown)
    (eventName userId groupId : String) (properties options gprops : Option Props)
    (events : List BatchEvent) (groupType : Option String) (cfgOptions : Config)
    (h : st.isInitialized = true) :
    reclassifiedFailure (track st hasOnError (DelegateBehavior.throws t) eventName properties options)
      st hasOnError (DelegateCall.trackCall eventName properties options)
      ("Failed to track event: " ++ eventName) t ∧
    reclassifiedFailure (trackBatch st hasOnError (DelegateBehavior.throws t) events)
      st hasOnError (DelegateCall.trackBatchCall events) "Failed to track batch events" t ∧
    reclassifiedFailure (identify st hasOnError (DelegateBehavior.throws t) userId properties)
      st hasOnError (DelegateCall.identifyCall userId properties)
      ("Failed to identify user: " ++ userId) t ∧
    reclassifiedFailure (group st hasOnError (DelegateBehavior.throws t) groupId gprops groupType)
      st hasOnError (DelegateCall.groupCall groupId gprops none)
      ("Failed to set group: " ++ groupId) t ∧
    reclassifiedFailure (flush st hasOnError (DelegateBehavior.throws t))
      st hasOnError DelegateCall.flushCall "Failed to flush events" t ∧
    reclassifiedFailure (configure st hasOnError (DelegateBehavior.throws t) cfgOptions)
      st hasOnError (DelegateCall.configureCall cfgOptions) "Failed to configure LoopKit" t := by
  refine ⟨?_, ?_, ?_, ?_, ?_, ?_⟩ <;>
    · simp only [track, trackBatch, identify, group, flush, configure, h, reclassifiedFailure]
      exact ⟨rfl, rfl, rfl, rfl⟩

/-- Witness for C3 amended at a concrete initialized state, with the
collaborator throwing a genuine Error value. -/
theorem C3_reclassify_and_rethrow_witness :
    let st : ProviderState :=
      { isInitialized := true, isLoading := false, error := none, currentConfig := none }
    let t := Thrown.errVal { name := "Error", message := "network down" }
    reclassifiedFailure (track st true (DelegateBehavior.throws t) "x" none none)
      st true (DelegateCall.trackCall "x" none none) ("Failed to track event: " ++ "x") t ∧
    reclassifiedFailure (trackBatch st true (DelegateBehavior.throws t) [])
      st true (DelegateCall.trackBatchCall []) "Failed to track batch events" t ∧
    reclassifiedFailure (identify st true (DelegateBehavior.throws t) "u1" none)
      st true (DelegateCall.identifyCall "u1" none) ("Failed to identify user: " ++ "u1") t ∧
    reclassifiedFailure (group st true (DelegateBehavior.throws t) "g1" none (some "team"))
      st true (DelegateCall.groupCall "g1" none none) ("Failed to set group: " ++ "g1") t ∧
    reclassifiedFailure (flush st true (DelegateBehavior.throws t))
      st true DelegateCall.flushCall "Failed to flush events" t ∧
    reclassifiedFailure (configure st true (DelegateBehavior.throws t) [])
      st true (DelegateCall.configureCall []) "Failed to configure LoopKit" t :=
  C3_reclassify_and_rethrow
    { isInitialized := true, isLoading := false, error := none, currentConfig := none }
    true (Thrown.errVal { name := "Error", message := "network down" })
    "x" "u1" "g1" none none none [] (some "team") [] rfl

/-- C4: evaluation of the code at the failing input. Invoking group while
initialized with groupId group123, a properties object and groupType
organization makes the collaborator receive the group call with its third
argument undefined: the call site on src/context.tsx line 228 passes only
groupId and properties, so groupType is dropped, while the repository test
in useLoopKit.test.tsx expects the collaborator to receive organization.
Track, by contrast, forwards its three arguments verbatim, here shown for
the scenario arguments x and the singleton property object. -/
theorem C4_group_type_dropped_at_delegate :
    (group { isInitialized := true, isLoading := false, error := none, currentConfig := none }
        false DelegateBehavior.succeeds "group123"
        (some [("name", PropVal.str "Test Group")]) (some "organization")).delegateCalls =
      [DelegateCall.groupCall "group123" (some [("name", PropVal.str "Test Group")]) none] ∧
    (track { isInitialized := true, isLoading := false, error := none, currentConfig := none }
        false DelegateBehavior.succeeds "x" (some [("a", PropVal.numVal 1)]) none).delegateCalls =
      [DelegateCall.trackCall "x" (some [("a", PropVal.numVal 1)]) none] := by
  decide

/-- C5: evaluation of the code at the failing input. Two renders with the
same credential and structurally equal configs that are distinct object
references run the initialization effect twice, because the dependency
array on src/context.tsx line 82 contains the config object itself and
React compares it with Object.is, that is by reference, not by value. -/
theorem C5_structurally_equal_config_reinitializes :
    let c : Config := [("debug", PropVal.boolVal true)]
    let r1 : ProviderRenderInput :=
      { apiKey := "key1", configRef := { refId := 0, value := c },
        onErrorRef := 7, onInitializedRef := 8 }
    let r2 : ProviderRenderInput :=
      { apiKey := "key1", configRef := { refId := 1, value := c },
        onErrorRef := 7, onInitializedRef := 8 }
    r1.apiKey = r2.apiKey ∧ r1.configRef.value = r2.configRef.value ∧
      initEffectRuns [r1, r2] = 2 := by
  decide

/-- C6: getQueueSize never raises. Before initialization it returns
exactly zero without calling the collaborator; while initialized, if the
collaborator throws, the error callback receives the normalized thrown
value exactly when registered and the result is zero. -/
theorem C6_getQueueSize_never_raises (st : ProviderState) (hasOnError : Bool) (q : QueueDelegate) :
    (st.isInitialized = false →
      getQueueSize st hasOnError q =
        { delegateCalls := [], onErrorCalls := [], value := 0 }) ∧
    (∀ t, st.isInitialized = true → q = QueueDelegate.throws t →
      (getQueueSize st hasOnError q).value = 0 ∧
      (getQueueSize st hasOnError q).onErrorCalls =
        (if hasOnError then [toBaseErr t] else []) ∧
      (getQueueSize st hasOnError q).delegateCalls = [DelegateCall.getQueueSizeCall]) := by
  constructor
  · intro h
    simp [getQueueSize, h]
  · intro t h hq
    subst hq
    simp [getQueueSize, h]

/-- Witness for C6 at a concrete uninitialized state and at a concrete
initialized state whose collaborator call throws. -/
theorem C6_getQueueSize_never_raises_witness :
    (getQueueSize { isInitialized := false, isLoading := true, error := none, currentConfig := none }
        true (QueueDelegate.returns 5) =
      { delegateCalls := [], onErrorCalls := [], value := 0 }) ∧
    ((getQueueSize { isInitialized := true, isLoading := false, error := none, currentConfig := none }
        true (QueueDelegate.throws (Thrown.errVal { name := "Error", message := "q" }))).value = 0 ∧
     (getQueueSize { isInitialized := true, isLoading := false, error := none, currentConfig := none }
        true (QueueDelegate.throws (Thrown.errVal { name := "Error", message := "q" }))).onErrorCalls =
       (if true then [toBaseErr (Thrown.errVal { name := "Error", message := "q" })] else []) ∧
     (getQueueSize { isInitialized := true, isLoading := false, error := none, currentConfig := none }
        true (QueueDelegate.throws (Thrown.errVal { name := "Error", message := "q" }))).delegateCalls =
       [DelegateCall.getQueueSizeCall]) :=
  ⟨(C6_getQueueSize_never_raises
      { isInitialized := false, isLoading := true, error := none, currentConfig := none }
      true (QueueDelegate.returns 5)).1 rfl,
   (C6_getQueueSize_never_raises
      { isInitialized := true, isLoading := false, error := none, currentConfig := none }
      true (QueueDelegate.throws (Thrown.errVal { name := "Error", message := "q" }))).2
     (Thrown.errVal { name := "Error", message := "q" }) rfl rfl⟩

/-- Concrete render inputs used by the C7 theorems. -/
def c7ReadyU1a : UseLoopKitRender :=
  { autoIdentify := true, userId := "u1", userPropsRef := 0, userProps := some [],
    isInitialized := true, identifyRef := 0 }

/-- Same render as c7ReadyU1a except the userProperties object is a fresh
reference with identical contents. -/
def c7ReadyU1b : UseLoopKitRender :=
  { autoIdentify := true, userId := "u1", userPropsRef := 1, userProps := some [],
    isInitialized := true, identifyRef := 0 }

/-- Ready render with a different userId. -/
def c7ReadyU2 : UseLoopKitRender :=
  { autoIdentify := true, userId := "u2", userPropsRef := 0, userProps := some [],
    isInitialized := true, identifyRef := 0 }

/-- Render before the lifecycle is ready. -/
def c7NotReady : UseLoopKitRender :=
  { autoIdentify := true, userId := "u1", userPropsRef := 0, userProps := some [],
    isInitialized := false, identifyRef := 0 }

/-- C7 counterexample: two ready renders with the same userId u1, differing
only in the reference identity of a structurally equal userProperties
object, invoke identify twice, because userProperties is in the dependency
array of the auto identify effect; so identify is not invoked exactly once
per distinct userId value. -/
theorem C7_same_userId_reidentified_on_props_ref_change :
    c7ReadyU1a.userId = c7ReadyU1b.userId ∧
    c7ReadyU1a.userProps = c7ReadyU1b.userProps ∧
    c7ReadyU1a.isInitialized = true ∧ c7ReadyU1b.isInitialized = true ∧
    autoIdentifyCalls [c7ReadyU1a, c7ReadyU1b] =
      [DelegateCall.identifyCall "u1" (some []), DelegateCall.identifyCall "u1" (some [])] := by
  decide

/-- A true dependency comparison of the auto identify effect forces equal
userId values. -/
theorem autoIdentifyDepsEqual_userId {a b : UseLoopKitRender}
    (h : autoIdentifyDepsEqual a b = true) : a.userId = b.userId := by
  unfold autoIdentifyDepsEqual at h
  simp only [Bool.and_eq_true, beq_iff_eq] at h
  exact h.1.1.1.2

/-- C7 amended: the auto identify effect never calls identify while the
lifecycle is not ready; a re-render that changes none of its dependencies,
in particular one that keeps the same userId and the same userProperties
reference, does not re-invoke identify; identify fires again whenever the
userId changes while ready; but a re-render that changes the reference of
a structurally equal userProperties object also re-invokes identify with
the unchanged userId, so once per distinct userId holds only per distinct
dependency tuple. -/
theorem C7_auto_identify_per_dependency_change (d d' : UseLoopKitRender) :
    (d.isInitialized = false → autoIdentifyRun d = []) ∧
    (autoIdentifyDepsEqual d d' = true → autoIdentifyCalls [d, d'] = autoIdentifyRun d) ∧
    (d.autoIdentify = true → d'.autoIdentify = true →
      d.isInitialized = true → d'.isInitialized = true →
      d.userId ≠ "" → d'.userId ≠ "" → d.userId ≠ d'.userId →
      autoIdentifyCalls [d, d'] =
        [DelegateCall.identifyCall d.userId d.userProps,
         DelegateCall.identifyCall d'.userId d'.userProps]) := by
  refine ⟨?_, ?_, ?_⟩
  · intro h
    simp [autoIdentifyRun, h]
  · intro h
    simp [autoIdentifyCalls, autoIdentifyCallsAux, h]
  · intro h1 h2 h3 h4 h5 h6 h7
    have hne : autoIdentifyDepsEqual d d' = false := by
      cases hEq : autoIdentifyDepsEqual d d' with
      | false => rfl
      | true => exact absurd (autoIdentifyDepsEqual_userId hEq) h7
    simp [autoIdentifyCalls, autoIdentifyCallsAux, autoIdentifyRun, hne, h1, h2, h3, h4,
      beq_eq_false_iff_ne, h5, h6]

/-- Witness for C7 amended at concrete renders: a not ready render yields
no call, a repeated identical render yields no additional call, and a
userId change while ready yields one call per userId. -/
theorem C7_auto_identify_per_dependency_change_witness :
    autoIdentifyRun c7NotReady = [] ∧
    autoIdentifyCalls [c7ReadyU1a, c7ReadyU1a] = autoIdentifyRun c7ReadyU1a ∧
    autoIdentifyCalls [c7ReadyU1a, c7ReadyU2] =
      [DelegateCall.identifyCall "u1" (some []), DelegateCall.identifyCall "u2" (some [])] :=
  ⟨(C7_auto_identify_per_dependency_change c7NotReady c7NotReady).1 rfl,
   (C7_auto_identify_per_dependency_change c7ReadyU1a c7ReadyU1a).2.1 (by decide),
   (C7_auto_identify_per_dependency_change c7ReadyU1a c7ReadyU2).2.2
     rfl rfl rfl rfl (by decide) (by decide) (by decide)⟩

/-- C8: the route tracking helper emits no route change event when the
computed current route equals the stored previous route, and over the
concrete ready browser sequences of the claim it emits exactly one event
for the routes slash a then slash a and exactly two for slash a then
slash b. -/
theorem C8_route_change_only_on_difference :
    (∀ prev r, currentRouteOf r = prev → (routeStep prev r).2 = []) ∧
    routeEvents ""
      [{ isInitialized := true, isBrowser := true, routeName := none, pathname := "/a" },
       { isInitialized := true, isBrowser := true, routeName := none, pathname := "/a" }] = ["/a"] ∧
    routeEvents ""
      [{ isInitialized := true, isBrowser := true, routeName := none, pathname := "/a" },
       { isInitialized := true, isBrowser := true, routeName := none, pathname := "/b" }] =
      ["/a", "/b"] := by
  refine ⟨?_, by decide, by decide⟩
  intro prev r h
  simp [routeStep, h]

/-- Witness for C8: the deduplication conjunct applied at the concrete
previous route slash a and a run recomputing the same route. -/
theorem C8_route_change_only_on_difference_witness :
    (routeStep "/a"
      { isInitialized := true, isBrowser := true, routeName := none, pathname := "/a" }).2 = [] ∧
    routeEvents ""
      [{ isInitialized := true, isBrowser := true, routeName := none, pathname := "/a" },
       { isInitialized := true, isBrowser := true, routeName := none, pathname := "/a" }] = ["/a"] :=
  ⟨C8_route_change_only_on_difference.1 "/a"
      { isInitialized := true, isBrowser := true, routeName := none, pathname := "/a" } rfl,
   C8_route_change_only_on_difference.2.1⟩

/-- C9: when a boundary child throws and tracking is enabled, the
collaborator track call reports a react error boundary event whose payload
carries the error message, name and stack, the component stack and the
current page path and url; a failure of that track call is caught and
logged locally, escapes nowhere, and leaves the stored error state, and
hence the rendered fallback, identical to the non failing case; the render
with hasError set yields the caller supplied fallback when present and the
default message block otherwise, never the thrown subtree. -/
theorem C9_boundary_reports_and_falls_back (p : BoundaryProps) (e : ReactError)
    (info : CaughtErrorInfo) (pathname url : String) (t : Thrown)
    (h : p.enableTracking = true) :
    (componentDidCatch p e info true pathname url (some t)).trackCalls =
      [DelegateCall.trackCall "react_error_boundary"
        (some (boundaryEventProps e info true pathname url)) none] ∧
    (boundaryEventProps e info true pathname url).lookup "error_message" =
      some (PropVal.str e.message) ∧
    (boundaryEventProps e info true pathname url).lookup "error_name" =
      some (PropVal.str e.name) ∧
    (boundaryEventProps e info true pathname url).lookup "error_stack" =
      some (PropVal.str e.stack) ∧
    (boundaryEventProps e info true pathname url).lookup "component_stack" =
      some (PropVal.str info.componentStack) ∧
    (boundaryEventProps e info true pathname url).lookup "page" =
      some (PropVal.str pathname) ∧
    (boundaryEventProps e info true pathname url).lookup "url" =
      some (PropVal.str url) ∧
    (componentDidCatch p e info true pathname url (some t)).escaped = none ∧
    (componentDidCatch p e info true pathname url (some t)).consoleErrorCount = 1 ∧
    (componentDidCatch p e info true pathname url (some t)).stateError =
      (componentDidCatch p e info true pathname url none).stateError ∧
    (componentDidCatch p e info true pathname url (some t)).stateErrorInfo =
      (componentDidCatch p e info true pathname url none).stateErrorInfo ∧
    renderBoundary true p.hasFallback (some e) (some info) ≠ RenderOutput.childrenOut ∧
    (p.hasFallback = true →
      renderBoundary true p.hasFallback (some e) (some info) =
        RenderOutput.customFallback (some e) (some info)) ∧
    (p.hasFallback = false →
      renderBoundary true p.hasFallback (some e) (some info) =
        RenderOutput.defaultFallback (some e) (some info)) := by
  refine ⟨?_, rfl, rfl, rfl, rfl, rfl, rfl, ?_, ?_, ?_, ?_, ?_, ?_, ?_⟩ <;>
    first
      | · simp [componentDidCatch, h]
      | · intro hf
          simp [renderBoundary, hf]
      | · cases hf : p.hasFallback <;> simp [renderBoundary, hf]

/-- Witness for C9 at a concrete boundary with tracking enabled, a custom
fallback absent, a concrete caught error and a track call that throws. -/
theorem C9_boundary_reports_and_falls_back_witness :
    let p : BoundaryProps := { hasFallback := false, enableTracking := true, hasOnError := false }
    let e : ReactError := { name := "Error", message := "boom2", stack := "stk" }
    let info : CaughtErrorInfo := { componentStack := "at App" }
    let t := Thrown.errVal { name := "Error", message := "track down" }
    (componentDidCatch p e info true "/p" "https://x/p" (some t)).trackCalls =
      [DelegateCall.trackCall "react_error_boundary"
        (some (boundaryEventProps e info true "/p" "https://x/p")) none] ∧
    (boundaryEventProps e info true "/p" "https://x/p").lookup "error_message" =
      some (PropVal.str e.message) ∧
    (boundaryEventProps e info true "/p" "https://x/p").lookup "error_name" =
      some (PropVal.str e.name) ∧
    (boundaryEventProps e info true "/p" "https://x/p").lookup "error_stack" =
      some (PropVal.str e.stack) ∧
    (boundaryEventProps e info true "/p" "https://x/p").lookup "component_stack" =
      some (PropVal.str info.componentStack) ∧
    (boundaryEventProps e info true "/p" "https://x/p").lookup "page" =
      some (PropVal.str "/p") ∧
    (boundaryEventProps e info true "/p" "https://x/p").lookup "url" =
      some (PropVal.str "https://x/p") ∧
    (componentDidCatch p e info true "/p" "https://x/p" (some t)).escaped = none ∧
    (componentDidCatch p e info true "/p" "https://x/p" (some t)).consoleErrorCount = 1 ∧
    (componentDidCatch p e info true "/p" "https://x/p" (some t)).stateError =
      (componentDidCatch p e info true "/p" "https://x/p" none).stateError ∧
    (componentDidCatch p e info true "/p" "https://x/p" (some t)).stateErrorInfo =
      (componentDidCatch p e info true "/p" "https://x/p" none).stateErrorInfo ∧
    renderBoundary true p.hasFallback (some e) (some info) ≠ RenderOutput.childrenOut ∧
    (p.hasFallback = true →
      renderBoundary true p.hasFallback (some e) (some info) =
        RenderOutput.customFallback (some e) (some info)) ∧
    (p.hasFallback = false →
      renderBoundary true p.hasFallback (some e) (some info) =
        RenderOutput.defaultFallback (some e) (some info)) :=
  C9_boundary_reports_and_falls_back
    { hasFallback := false, enableTracking := true, hasOnError := false }
    { name := "Error", message := "boom2", stack := "stk" }
    { componentStack := "at App" } "/p" "https://x/p"
    (Thrown.errVal { name := "Error", message := "track down" }) rfl

/-- C10: configure is atomic with respect to the cached config. While
initialized, a collaborator failure leaves the whole provider state, in
particular currentConfig, exactly as before and raises the TrackingFailure
built for configure; only a normal return replaces the cached config by
the previous cached config with the supplied options spread over it. -/
theorem C10_configure_atomic (st : ProviderState) (hasOnError : Bool)
    (cfgOptions : Config) (t : Thrown) (h : st.isInitialized = true) :
    (configure st hasOnError (DelegateBehavior.throws t) cfgOptions).state = st ∧
    (configure st hasOnError (DelegateBehavior.throws t) cfgOptions).state.currentConfig =
      st.currentConfig ∧
    (configure st hasOnError (DelegateBehavior.throws t) cfgOptions).result =
      OpResult.thrown (LoopKitTrackingError "Failed to configure LoopKit" (some (toBaseErr t))) ∧
    (configure st hasOnError DelegateBehavior.succeeds cfgOptions).state.currentConfig =
      some (spreadMerge (st.currentConfig.getD []) cfgOptions) := by
  refine ⟨?_, ?_, ?_, ?_⟩ <;> simp [configure, h]

/-- Witness for C10 at a concrete cached config and concrete options,
also spelling out the concrete merged result: the shared key debug takes
the supplied value, the untouched key batchSize keeps its value and the
new key flushInterval is appended. -/
theorem C10_configure_atomic_witness :
    let st : ProviderState :=
      { isInitialized := true, isLoading := false, error := none,
        currentConfig := some [("debug", PropVal.boolVal false), ("batchSize", PropVal.numVal 50)] }
    let opts : Config := [("debug", PropVal.boolVal true), ("flushInterval", PropVal.numVal 30)]
    let t := Thrown.errVal { name := "Error", message := "cfg down" }
    ((configure st true (DelegateBehavior.throws t) opts).state = st ∧
     (configure st true (DelegateBehavior.throws t) opts).state.currentConfig =
       st.currentConfig ∧
     (configure st true (DelegateBehavior.throws t) opts).result =
       OpResult.thrown (LoopKitTrackingError "Failed to configure LoopKit" (some (toBaseErr t))) ∧
     (configure st true DelegateBehavior.succeeds opts).state.currentConfig =
       some (spreadMerge (st.currentConfig.getD []) opts)) ∧
    (configure st true DelegateBehavior.succeeds opts).state.currentConfig =
      some [("debug", PropVal.boolVal true), ("batchSize", PropVal.numVal 50),
            ("flushInterval", PropVal.numVal 30)] :=
  ⟨C10_configure_atomic
      { isInitialized := true, isLoading := false, error := none,
        currentConfig := some [("debug", PropVal.boolVal false), ("batchSize", PropVal.numVal 50)] }
      true [("debug", PropVal.boolVal true), ("flushInterval", PropVal.numVal 30)]
      (Thrown.errVal { name := "Error", message := "cfg down" }) rfl,
   by decide⟩

end LoopKitReact
